import Mathlib

/-!
Verification of the hotel-lookup orchestration core of the
PaulTozer/HotelTVLicensing repository.

The definitions below are a shallow embedding of the Python sources:

* `src/services/hotel_lookup.py`   — `HotelLookupService.lookup_hotel`,
  `lookup_batch` and their private helpers;
* `src/services/retry_queue_service.py` — `RetryQueueService`;
* `src/services/cache_service.py`  — `CacheService._generate_cache_key`.

External collaborators (Bing grounding, web search, scraper, AI extractor,
booking sites, planning portal, Redis) are modelled by an environment record
holding the outcome of each call the orchestrator makes during one
invocation; a Python call that can raise is an `Except String` value.
Python `None`-able values are `Option`; an `Option` `none` models both an
absent dictionary key and an explicit `None` value.  Python truthiness of
strings and integers is modelled explicitly (`""` and `0` are falsy).
Times are modelled losslessly (`datetime.utcnow` is the environment field
`now`; `isoformat`/`fromisoformat` round-trip without failure), so the only
fault channel of cache deserialization kept in the model is the
`StatusEnum(...)` constructor, exactly as in
`HotelInfoResponse(... status=StatusEnum(cached_result.get("status", "partial")) ...)`.
-/

namespace HotelTV

deriving instance DecidableEq for Except

/-- Embeds `models.StatusEnum`. -/
inductive StatusEnum
  | success
  | partialInfo
  | not_found
  | error
deriving DecidableEq, Repr

/-- Python string value of a `StatusEnum` member (`models.py`). -/
def StatusEnum.toStr : StatusEnum → String
  | .success => "success"
  | .partialInfo => "partial"
  | .not_found => "not_found"
  | .error => "error"

/-- The `StatusEnum(s)` construction: raises `ValueError` on an unknown string. -/
def parseStatusEnum (s : String) : Except String StatusEnum :=
  if s = "success" then .ok .success
  else if s = "partial" then .ok .partialInfo
  else if s = "not_found" then .ok .not_found
  else if s = "error" then .ok .error
  else .error (s ++ " is not a valid StatusEnum")

/-- Python truthiness of a `str`-or-`None` value: `None` and `""` are falsy. -/
def truthyS : Option String → Bool
  | none => false
  | some s => s != ""

/-- Python truthiness of an `int`-or-`None` value: `None` and `0` are falsy. -/
def truthyN : Option Int → Bool
  | none => false
  | some n => n != 0

/-- Python `str()` of a `str`-or-`None` value inside an f-string. -/
def pyStr : Option String → String
  | none => "None"
  | some s => s

/-- Embeds `models.HotelSearchRequest`. -/
structure HotelSearchRequest where
  name : String
  address : Option String := none
  city : Option String := none
  postcode : Option String := none
deriving DecidableEq, Repr

/-- Embeds `models.HotelInfoResponse`; `last_checked` is the model time `now`. -/
structure HotelInfoResponse where
  search_name : String
  search_address : Option String := none
  official_website : Option String := none
  uk_contact_phone : Option String := none
  rooms_min : Option Int := none
  rooms_max : Option Int := none
  rooms_source_notes : Option String := none
  website_source_url : Option String := none
  phone_source_url : Option String := none
  status : StatusEnum := .not_found
  last_checked : Nat
  confidence_score : Option ℚ := none
  errors : List String := []
deriving DecidableEq, Repr

/-- Dictionary returned by `BingGroundingService.search_hotel_async`. -/
structure BingDict where
  official_website : Option String := none
  uk_contact_phone : Option String := none
  rooms_min : Option Int := none
  rooms_max : Option Int := none
  rooms_source_notes : Option String := none
  confidence : Option ℚ := none
deriving DecidableEq, Repr

/-- One entry of the list returned by `WebSearchService.search_hotel_website`. -/
structure SearchResultDict where
  is_aggregator : Option Bool := none
  url : Option String := none
  href : Option String := none
  source : Option String := none
deriving DecidableEq, Repr

/-- Dictionary returned by `WebScraperService.deep_scrape_hotel`. -/
structure ScrapeResult where
  success : Bool
  raw_html : String := ""
  text_content : String := ""
  phone_numbers : List String := []
  room_mentions : List String := []
deriving DecidableEq, Repr

/-- Dictionary returned by `WebScraperService.detect_domain_parking`. -/
structure ParkingResult where
  is_parked : Bool
  indicators_found : List String := []
deriving DecidableEq, Repr

/-- Dictionary returned by `AIExtractorService.verify_website_is_correct`. -/
structure VerifyResult where
  is_match : Option Bool := none
  confidence : Option ℚ := none
  reason : Option String := none
deriving DecidableEq, Repr

/-- Dictionary returned by `AIExtractorService.extract_hotel_info`. -/
structure Extraction where
  rooms_min : Option Int := none
  rooms_max : Option Int := none
  uk_phone : Option String := none
  rooms_source_notes : Option String := none
  confidence : Option ℚ := none
deriving DecidableEq, Repr

/-- Dictionary returned by `WebScraperService.scrape_booking_site_for_rooms`. -/
structure BookingResult where
  success : Bool
  rooms_min : Option Int := none
  rooms_max : Option Int := none
  source_notes : Option String := none
  phone : Option String := none
  source : Option String := none
deriving DecidableEq, Repr

/-- Dictionary returned by `PlanningPortalService.search_planning_portal`. -/
structure PlanningResult where
  room_count : Option Int := none
  notes : Option String := none
  source_url : Option String := none
deriving DecidableEq, Repr

/-- The dictionary stored by `_cache_response` / returned by
`CacheService.get_hotel_lookup` on a hit (field `cached_at` is the
`_cached_at` metadata added by the cache layer). -/
structure CachedDict where
  search_name : Option String := none
  search_address : Option String := none
  official_website : Option String := none
  uk_contact_phone : Option String := none
  rooms_min : Option Int := none
  rooms_max : Option Int := none
  rooms_source_notes : Option String := none
  website_source_url : Option String := none
  phone_source_url : Option String := none
  status : Option String := none
  last_checked : Option Nat := none
  confidence_score : Option ℚ := none
  errors : List String := []
  cached_at : Option String := none
deriving DecidableEq, Repr

/-- Outcomes of every external call one `lookup_hotel` invocation can make.
At most one call per collaborator happens per invocation, so one field per
collaborator suffices.  `cacheAvailable` is
`self.cache_service and self.cache_service.is_connected`;
`bingConfigured` is `self.bing_service and self.bing_service.is_configured`. -/
structure LookupEnv where
  now : Nat := 0
  cacheAvailable : Bool := false
  cacheGet : Option CachedDict := none
  bingConfigured : Bool := false
  bing : Except String (Option BingDict) := .ok none
  webSearch : Except String (List SearchResultDict) := .ok []
  scrape : Except String ScrapeResult := .ok { success := false }
  parking : ParkingResult := { is_parked := false }
  aiConfigured : Bool := false
  verify : Except String VerifyResult := .ok {}
  extract : Except String Extraction := .ok {}
  booking : Except String BookingResult := .ok { success := false }
  planning : Except String (Option PlanningResult) := .ok none
deriving Repr

/-- Embeds `HotelLookupService._build_address`. -/
def build_address (req : HotelSearchRequest) : Option String :=
  let parts := ([req.address, req.city, req.postcode].filterMap id).filter (· != "")
  if parts = [] then none else some (String.intercalate ", " parts)

/-- The marker inserted at index 0 of `errors` on a cache hit. -/
def cacheMarker (c : CachedDict) : String :=
  "[Cached result from " ++ c.cached_at.getD "unknown" ++ "]"

/-- Reconstruction of a `HotelInfoResponse` from a cached dictionary
(`lookup_hotel`, cache-hit branch).  The `StatusEnum` constructor can raise;
this happens outside the `try` block of `lookup_hotel`. -/
def deserializeCached (env : LookupEnv) (req : HotelSearchRequest)
    (c : CachedDict) : Except String HotelInfoResponse :=
  match parseStatusEnum (c.status.getD "partial") with
  | .error e => .error e
  | .ok st =>
    .ok {
        search_name := c.search_name.getD req.name
        search_address := c.search_address
        official_website := c.official_website
        uk_contact_phone := c.uk_contact_phone
        rooms_min := c.rooms_min
        rooms_max := c.rooms_max
        rooms_source_notes := c.rooms_source_notes
        website_source_url := c.website_source_url
        phone_source_url := c.phone_source_url
        status := st
        last_checked := c.last_checked.getD env.now
        confidence_score := c.confidence_score
        errors := c.errors }

/-- Embeds `HotelLookupService._try_booking_sites`: swallows faults, yields the
booking dictionary only when its `success` field is truthy. -/
def try_booking_sites (env : LookupEnv) : Option BookingResult :=
  match env.booking with
  | .error _ => none
  | .ok r => if r.success then some r else none

/-- Embeds `HotelLookupService._apply_booking_result`. -/
def apply_booking_result (r : HotelInfoResponse) (b : BookingResult) :
    HotelInfoResponse :=
  let r := if truthyN b.rooms_min then { r with rooms_min := b.rooms_min } else r
  let r := if truthyN b.rooms_max then { r with rooms_max := b.rooms_max } else r
  let r := if truthyS b.source_notes then
      { r with rooms_source_notes := b.source_notes } else r
  if truthyS b.phone && !truthyS r.uk_contact_phone then
    { r with uk_contact_phone := b.phone
             phone_source_url := some (b.source.getD "Booking site") }
  else r

/-- Embeds `HotelLookupService._try_planning_portal`: swallows faults, yields the
planning dictionary only when present with a truthy `room_count`. -/
def try_planning_portal (env : LookupEnv) : Option PlanningResult :=
  match env.planning with
  | .error _ => none
  | .ok none => none
  | .ok (some p) => if truthyN p.room_count then some p else none

/-- Embeds `HotelLookupService._apply_planning_result`. -/
def apply_planning_result (r : HotelInfoResponse) (p : PlanningResult) :
    HotelInfoResponse :=
  if truthyN p.room_count then
    let notes := "Planning portal: " ++ p.notes.getD "Found in planning application"
    let notes := if truthyS p.source_url then
        notes ++ " (" ++ p.source_url.getD "" ++ ")" else notes
    { r with rooms_min := p.room_count
             rooms_max := p.room_count
             rooms_source_notes := some notes }
  else r

/-- Embeds `HotelLookupService._deep_scrape_and_extract`: guarded by its own
`try`/`except`, so it never propagates a fault; fills only missing fields
and raises confidence only when the extraction confidence is higher. -/
def deep_scrape_and_extract (env : LookupEnv) (r : HotelInfoResponse)
    (url : String) : HotelInfoResponse :=
  match env.scrape with
  | .error e => { r with errors := r.errors ++ ["Deep scrape error: " ++ e] }
  | .ok s =>
    if !s.success then
      { r with errors := r.errors ++ ["Deep scrape failed for " ++ url] }
    else if env.parking.is_parked then
      { r with errors := r.errors ++ ["Website appears to be parked - data may be stale"] }
    else if env.aiConfigured then
      match env.extract with
      | .error e => { r with errors := r.errors ++ ["Deep scrape error: " ++ e] }
      | .ok ex =>
        let r :=
          match ex.rooms_min with
          | some v =>
            if !truthyN r.rooms_min && truthyN (some v) then
              { r with rooms_min := some v
                       rooms_max := some (ex.rooms_max.getD v)
                       rooms_source_notes :=
                         some (ex.rooms_source_notes.getD "Extracted from hotel website") }
            else r
          | none => r
        let r :=
          if !truthyS r.uk_contact_phone && truthyS ex.uk_phone then
            { r with uk_contact_phone := ex.uk_phone
                     phone_source_url := some url }
          else r
        if ex.confidence.getD 0 > r.confidence_score.getD 0 then
          { r with confidence_score := some (ex.confidence.getD 0) }
        else r
    else r

/-- Lines 107-112 of `hotel_lookup.py`: status from truthiness of
`rooms_min`, `uk_contact_phone` and `official_website`. -/
def final_status (rm ph wb : Bool) : StatusEnum :=
  if rm && ph && wb then .success
  else if rm || ph || wb then .partialInfo
  else .not_found

/-- Result of one `lookup_hotel` invocation together with the orchestration
facts the spec talks about: whether the caching step was reached
(`wroteCache`) and whether the cache-hit branch returned (`cacheHit`). -/
structure LookupOutcome where
  resp : HotelInfoResponse
  wroteCache : Bool
  cacheHit : Bool
deriving DecidableEq, Repr

/-- Lines 86-118 of `hotel_lookup.py`: the Bing-grounding path, entered when
`search_hotel_async` returned a truthy dictionary.  Total: the deep-scrape
helper guards its own faults and `_cache_response` swallows cache faults. -/
def bing_path (env : LookupEnv) (useCache : Bool) (r0 : HotelInfoResponse)
    (b : BingDict) : HotelInfoResponse × Bool :=
  let r := { r0 with
    official_website := b.official_website
    uk_contact_phone := b.uk_contact_phone
    rooms_min := b.rooms_min
    rooms_max := b.rooms_max
    rooms_source_notes := b.rooms_source_notes
    confidence_score := some (b.confidence.getD 0)
    website_source_url := some "Bing Grounding" }
  let r := if truthyS b.uk_contact_phone then
      { r with phone_source_url := some "Bing Grounding" } else r
  let r := if truthyS b.official_website &&
      (!truthyN r.rooms_min || !truthyS r.uk_contact_phone) then
      deep_scrape_and_extract env r (b.official_website.getD "") else r
  let st : StatusEnum :=
    final_status (truthyN r.rooms_min) (truthyS r.uk_contact_phone)
      (truthyS r.official_website)
  ({ r with status := st }, useCache && env.cacheAvailable)

/-- Lines 248-263 of `hotel_lookup.py`: inside the could-not-extract
branch, the booking-site fallback and then the planning-portal last resort
try to backfill the room count. -/
def rooms_backfill (env : LookupEnv) (r : HotelInfoResponse) :
    HotelInfoResponse :=
  let r :=
    if !truthyN r.rooms_min then
      match try_booking_sites env with
      | some b =>
        let r := apply_booking_result r b
        if truthyN r.rooms_min then
          { r with
            status := .partialInfo,
            errors := r.errors ++
              ["Room count sourced from " ++ b.source.getD "booking site"] }
        else r
      | none => r
    else r
  if !truthyN r.rooms_min then
    match try_planning_portal env with
    | some p =>
      let r := apply_planning_result r p
      if truthyN r.rooms_min then
        { r with errors := r.errors ++ ["Room count sourced from planning portal"] }
      else r
    | none => r
  else r

/-- Lines 220-271 of `hotel_lookup.py`: AI extraction, final status
determination, booking-site and planning-portal room-count fallbacks, and
the caching step.  A fault in `extract_hotel_info` escapes to the
orchestrator guard, carrying the response built so far. -/
def extraction_phase (env : LookupEnv) (useCache : Bool)
    (r : HotelInfoResponse) (websiteUrl : Option String) :
    Except (HotelInfoResponse × String) (HotelInfoResponse × Bool) :=
  match env.extract with
  | .error e => .error (r, e)
  | .ok ex =>
    let r := { r with
      rooms_min := ex.rooms_min
      rooms_max := ex.rooms_max
      uk_contact_phone := ex.uk_phone
      rooms_source_notes := ex.rooms_source_notes
      confidence_score := ex.confidence }
    let r := if truthyS r.uk_contact_phone then
        { r with phone_source_url := websiteUrl } else r
    let r :=
      if truthyN r.rooms_min && truthyS r.uk_contact_phone then
        { r with status := .success }
      else if truthyN r.rooms_min || truthyS r.uk_contact_phone then
        { r with status := .partialInfo }
      else
        rooms_backfill env { r with
          status := .partialInfo,
          errors := r.errors ++ ["Could not extract room count or phone number from website"] }
    .ok (r, useCache && env.cacheAvailable)

/-- The body of the `try` block of `lookup_hotel` (lines 74-271).  The error
component of the `Except` carries the response as populated at the moment of
the unhandled fault, with the fault message.  The `Bool` of the success
component records whether the caching step ran. -/
def try_body (env : LookupEnv) (useCache : Bool) (r0 : HotelInfoResponse) :
    Except (HotelInfoResponse × String) (HotelInfoResponse × Bool) :=
  -- Step 1: Bing grounding (primary) — the call happens only when the Bing
  -- service is present and configured, so only then can it fault.
  match (if env.bingConfigured then env.bing else .ok none :
      Except String (Option BingDict)) with
  | .error e => .error (r0, e)
  | .ok (some b) => .ok (bing_path env useCache r0 b)
  | .ok none =>
    -- Step 1b: fallback web search.
    match env.webSearch with
    | .error e => .error (r0, e)
    | .ok results =>
      match results with
      | [] => .ok ({ r0 with
          status := .not_found,
          errors := r0.errors ++ ["No search results found for this hotel"] }, false)
      | first :: _ =>
        let (official, r1) :=
          match results.find? (fun sr => !(sr.is_aggregator.getD true)) with
          | some o => (o, r0)
          | none => (first, { r0 with errors := r0.errors ++
              ["Could not find official website, using best available result"] })
        let websiteUrl : Option String :=
          if truthyS official.url then official.url else official.href
        let r1 := { r1 with official_website := websiteUrl,
                            website_source_url := some (official.source.getD "Web search") }
        -- Step 2: scrape the website.
        match env.scrape with
        | .error e => .error (r1, e)
        | .ok s =>
          if !s.success then
            let r2 := { r1 with
              status := .partialInfo,
              errors := r1.errors ++ ["Failed to scrape website: " ++ pyStr websiteUrl] }
            let r2 := match try_booking_sites env with
              | some b => apply_booking_result r2 b
              | none => r2
            .ok (r2, false)
          else if env.parking.is_parked then
            let r2 := { r1 with
              status := .partialInfo,
              errors := r1.errors ++
                ["Website appears to be a parked domain - business may have closed. Indicators: " ++
                  String.intercalate ", " (env.parking.indicators_found.take 3)],
              official_website := none }
            let r2 := match try_booking_sites env with
              | some b =>
                let r3 := apply_booking_result r2 b
                { r3 with errors := r3.errors ++
                    ["Room count sourced from " ++ b.source.getD "booking site"] }
              | none => r2
            .ok (r2, false)
          else
            -- Step 3: verification (only when an AI provider is configured).
            if env.aiConfigured then
              match env.verify with
              | .error e => .error (r1, e)
              | .ok v =>
                if !(v.is_match.getD true) then
                  let r2 := { r1 with
                    errors := r1.errors ++
                      ["Website may not match hotel: " ++ pyStr v.reason],
                    official_website := none }
                  if v.confidence.getD 0 > 1/2 then
                    match try_booking_sites env with
                    | some b =>
                      let r3 := apply_booking_result r2 b
                      .ok ({ r3 with
                        status := .partialInfo,
                        errors := r3.errors ++
                          ["Data sourced from " ++ b.source.getD "booking site" ++ " as fallback"] },
                        false)
                    | none =>
                      .ok ({ r2 with
                        status := .not_found,
                        errors := r2.errors ++
                          ["Could not find hotel information from any source - hotel may have closed"] },
                        false)
                  else
                    extraction_phase env useCache r2 websiteUrl
                else
                  extraction_phase env useCache r1 websiteUrl
            else
              extraction_phase env useCache r1 websiteUrl

/-- The response as freshly constructed at lines 68-72 of
`hotel_lookup.py`, before the `try` block. -/
def init_response (env : LookupEnv) (req : HotelSearchRequest) :
    HotelInfoResponse :=
  { search_name := req.name
    search_address := build_address req
    last_checked := env.now }

/-- The guarded pipeline: the `try`/`except` of `lookup_hotel`.  An unhandled
fault becomes a terminal Error result: fields populated before the fault are
retained, the fault message is appended to `errors`, and the caching step is
skipped. -/
def run_pipeline (env : LookupEnv) (req : HotelSearchRequest)
    (useCache : Bool) : LookupOutcome :=
  match try_body env useCache (init_response env req) with
  | .ok (r, wrote) => ⟨r, wrote, false⟩
  | .error (r, e) =>
    ⟨{ r with status := .error, errors := r.errors ++ [e] }, false, false⟩

/-- Embeds `HotelLookupService.lookup_hotel`.  The cache check (lines 44-66) sits
before the `try` block: a fault while deserializing a cached snapshot
propagates to the caller, hence the outer `Except`. -/
def lookup_hotel (env : LookupEnv) (req : HotelSearchRequest)
    (useCache : Bool := true) : Except String LookupOutcome :=
  if useCache && env.cacheAvailable then
    match env.cacheGet with
    | some c =>
      match deserializeCached env req c with
      | .error e => .error e
      | .ok r => .ok ⟨{ r with errors := cacheMarker c :: r.errors }, false, true⟩
    | none => .ok (run_pipeline env req useCache)
  else .ok (run_pipeline env req useCache)

/-! ### Batch executor (`lookup_batch`, lines 302-348) -/

/-- The placeholder written into a slot whose task left `results[index]`
unset (its `lookup_hotel` call raised and `asyncio.gather` captured the
exception). -/
def error_placeholder (req : HotelSearchRequest) (now : Nat) :
    HotelInfoResponse :=
  { search_name := req.name
    search_address := build_address req
    status := .error
    errors := ["Lookup failed unexpectedly"]
    last_checked := now }

/-- The value that ends up in `results[i]`: the response of
`lookup_hotel(request)` (with default `use_cache=True`), or the Error
placeholder when the call raised. -/
def batch_slot (env : LookupEnv) (req : HotelSearchRequest) :
    HotelInfoResponse :=
  match lookup_hotel env req true with
  | .ok o => o.resp
  | .error _ => error_placeholder req env.now

/-- Slot-indexed traversal of the requests; each task is scheduled with its
own index, so the filled `results` list is index-aligned with `requests`
whatever order tasks complete in. -/
def lookup_batch_go (envs : Nat → LookupEnv) (i : Nat) :
    List HotelSearchRequest → List HotelInfoResponse
  | [] => []
  | req :: rest => batch_slot (envs i) req :: lookup_batch_go envs (i + 1) rest

/-- Embeds `HotelLookupService.lookup_batch`: pre-allocated, order-preserving
results.  `envs i` is the external world seen by the task of slot `i`. -/
def lookup_batch (envs : Nat → LookupEnv)
    (reqs : List HotelSearchRequest) : List HotelInfoResponse :=
  lookup_batch_go envs 0 reqs

/-! ### Retry queue (`retry_queue_service.py`)

Times in the retry queue are rationals (the backoff base is a float and
delays are added to wall-clock datetimes, both modelled as `ℚ`). -/

/-- Embeds `RetryStatus`. -/
inductive RetryStatus
  | pending
  | retrying
  | succeeded
  | exhausted
deriving DecidableEq, Repr

/-- The result dictionary stored on a successful retry (`retry_one`). -/
structure RetryResultDict where
  status : String
  official_website : Option String := none
  uk_contact_phone : Option String := none
  rooms_min : Option Int := none
  rooms_max : Option Int := none
  confidence_score : Option ℚ := none
deriving DecidableEq, Repr

/-- Embeds `RetryItem`.  The `uuid` of a new item is modelled as a caller-supplied
identifier. -/
structure RetryItem where
  id : String
  hotel_name : String
  address : Option String := none
  city : Option String := none
  postcode : Option String := none
  original_errors : List String := []
  original_status : String := "not_found"
  source_batch_id : Option String := none
  status : RetryStatus := .pending
  attempt_count : Nat := 0
  max_attempts : Nat := 3
  created_at : ℚ := 0
  last_attempt_at : Option ℚ := none
  next_retry_at : Option ℚ := none
  last_errors : List String := []
  result : Option RetryResultDict := none
deriving DecidableEq, Repr

/-- A history entry: the completed item dictionary plus the `completed_at`
timestamp added by `_move_to_history`. -/
structure HistoryEntry where
  item : RetryItem
  completed_at : ℚ
deriving DecidableEq, Repr

/-- The in-memory store of `RetryQueueService`: `_queue` (an id-keyed
dictionary, modelled as a list of items with distinct ids), `_history`
(most recent first) and the `_processing` flag. -/
structure RetryQueueState where
  queue : List RetryItem := []
  history : List HistoryEntry := []
  processing : Bool := false
deriving DecidableEq, Repr

/-- Embeds `HISTORY_MAX`. -/
def HISTORY_MAX : Nat := 200

/-- Embeds `get_item` (in-memory backend): dictionary lookup by id. -/
def get_item (s : RetryQueueState) (id : String) : Option RetryItem :=
  s.queue.find? (fun it => it.id = id)

/-- Embeds `_save_item` (in-memory backend): `self._queue[item.id] = item`. -/
def save_item (s : RetryQueueState) (it : RetryItem) : RetryQueueState :=
  if s.queue.any (fun x => x.id = it.id) then
    { s with queue := s.queue.map (fun x => if x.id = it.id then it else x) }
  else
    { s with queue := s.queue ++ [it] }

/-- Embeds `remove_item` (in-memory backend). -/
def remove_item (s : RetryQueueState) (id : String) : RetryQueueState :=
  { s with queue := s.queue.filter (fun x => x.id != id) }

/-- Embeds `_calculate_next_retry`: `now + backoff_base * 2 ** attempt_count`. -/
def calculate_next_retry (base : ℚ) (now : ℚ) (attempt_count : Nat) : ℚ :=
  now + base * 2 ^ attempt_count

/-- Embeds `_move_to_history`: remove from the live queue, then prepend the item
dictionary with a `completed_at` timestamp and cap the history at
`HISTORY_MAX`. -/
def move_to_history (s : RetryQueueState) (it : RetryItem) (now : ℚ) :
    RetryQueueState :=
  let s := remove_item s it.id
  { s with history := (⟨it, now⟩ :: s.history).take HISTORY_MAX }

/-- Invariant: all live-queue items are strictly below their attempt cap. -/
def queue_bounded (s : RetryQueueState) : Prop :=
  ∀ it ∈ s.queue, it.attempt_count < it.max_attempts

/-- Number of history entries bearing a given item id. -/
def history_count (id : String) (h : List HistoryEntry) : Nat :=
  (h.filter (fun e => e.item.id = id)).length

/-- Embeds `enqueue`: create a Pending item with `attempt_count = 0` and
`next_retry_at = _calculate_next_retry(0)` and save it. -/
def enqueue (s : RetryQueueState) (id hotel_name : String)
    (address city postcode : Option String) (original_errors : List String)
    (original_status : String) (source_batch_id : Option String)
    (maxAttempts : Nat) (base now : ℚ) : RetryQueueState × RetryItem :=
  let it : RetryItem :=
    { id := id
      hotel_name := hotel_name
      address := address
      city := city
      postcode := postcode
      original_errors := original_errors
      original_status := original_status
      source_batch_id := source_batch_id
      status := .pending
      attempt_count := 0
      max_attempts := maxAttempts
      created_at := now
      next_retry_at := some (calculate_next_retry base now 0) }
  (save_item s it, it)

/-- Lines 300-302 of `retry_queue_service.py`: the item as mutated before
the `try` block of `retry_one` — Retrying, attempt count incremented,
attempt time stamped. -/
def retrying_item (it0 : RetryItem) (now : ℚ) : RetryItem :=
  { it0 with
    status := .retrying,
    attempt_count := it0.attempt_count + 1,
    last_attempt_at := some now }

/-- Lines 319-330: the item as mutated when the retried lookup came back
Success or Partial. -/
def succeeded_item (it0 : RetryItem) (now : ℚ) (res : HotelInfoResponse) :
    RetryItem :=
  { retrying_item it0 now with
    status := .succeeded,
    result := some
      { status := res.status.toStr
        official_website := res.official_website
        uk_contact_phone := res.uk_contact_phone
        rooms_min := res.rooms_min
        rooms_max := res.rooms_max
        confidence_score := res.confidence_score },
    last_errors := [] }

/-- The item as mutated on a failed retry, before the exhaustion test:
`last_errors` holds the result errors (still-failed branch, line 336) or
the single exception message (except branch, line 355). -/
def fail_item (it0 : RetryItem) (now : ℚ) (errs : List String) : RetryItem :=
  { retrying_item it0 now with last_errors := errs }

/-- Lines 337-351 and 356-362 (the still-failed and except branches share
this logic): exhaust and move to history at the attempt cap, otherwise
return to Pending with a fresh backoff time. -/
def retry_fail (base : ℚ) (s1 : RetryQueueState) (it2 : RetryItem)
    (now : ℚ) : RetryQueueState × Option RetryItem :=
  if it2.max_attempts ≤ it2.attempt_count then
    let it3 := { it2 with status := .exhausted }
    (move_to_history s1 it3 now, some it3)
  else
    let it3 := { it2 with
      status := .pending,
      next_retry_at := some (calculate_next_retry base now it2.attempt_count) }
    (save_item s1 it3, some it3)

/-- Embeds `retry_one` (lines 283-363).  `lookupOutcome` is the outcome of the
`lookup_service.lookup_hotel(...)` call inside the `try` block: `.error`
models a raised exception (note the call as written in the source passes a
`skip_deep_scrape` keyword the `lookup_hotel` under `src/` does not accept,
which raises `TypeError` and is captured by this same branch). -/
def retry_one (base : ℚ) (s : RetryQueueState) (id : String)
    (lookupOutcome : Except String HotelInfoResponse) (now : ℚ) :
    RetryQueueState × Option RetryItem :=
  match get_item s id with
  | none => (s, none)
  | some it0 =>
    let s1 := save_item s (retrying_item it0 now)
    match lookupOutcome with
    | .ok res =>
      if res.status = .success ∨ res.status = .partialInfo then
        let it2 := succeeded_item it0 now res
        (move_to_history s1 it2 now, some it2)
      else
        retry_fail base s1 (fail_item it0 now res.errors) now
    | .error e =>
      retry_fail base s1 (fail_item it0 now [e]) now

/-- Result of `retry_all_pending`: either the explicit rejection dictionary
`{"error": "Retry processing already in progress"}` or the summary counts. -/
inductive RetryAllResult
  | alreadyInProgress
  | counts (processed succeeded still_failed exhausted : Nat)
deriving DecidableEq, Repr

/-- Count aggregation of `_process` in `retry_all_pending`. -/
def tally (acc : Nat × Nat × Nat × Nat) (ret : Option RetryItem) :
    Nat × Nat × Nat × Nat :=
  match ret with
  | none => acc
  | some it =>
    let (p, su, sf, ex) := acc
    if it.status = .succeeded then (p + 1, su + 1, sf, ex)
    else if it.status = .exhausted then (p + 1, su, sf, ex + 1)
    else (p + 1, su, sf + 1, ex)

/-- The sequential re-drive of the pending items (the semaphore-bounded
`asyncio.gather` of `_process` tasks, modelled as in-order completion).
`outcomes id` is the lookup outcome the retry of item `id` observes. -/
def retry_pending_loop (base : ℚ) (outcomes : String → Except String HotelInfoResponse)
    (now : ℚ) : RetryQueueState → List RetryItem → Nat × Nat × Nat × Nat →
    RetryQueueState × (Nat × Nat × Nat × Nat)
  | s, [], acc => (s, acc)
  | s, it :: rest, acc =>
    let (s1, ret) := retry_one base s it.id (outcomes it.id) now
    retry_pending_loop base outcomes now s1 rest (tally acc ret)

/-- Embeds `retry_all_pending` (lines 365-413).  When `_processing` is already set
the call is rejected immediately, before the pending set is read and
without touching any state. -/
def retry_all_pending (base : ℚ) (s : RetryQueueState)
    (outcomes : String → Except String HotelInfoResponse) (now : ℚ) :
    RetryQueueState × RetryAllResult :=
  if s.processing then (s, .alreadyInProgress)
  else
    let s := { s with processing := true }
    let pending := s.queue.filter (fun it => it.status = .pending)
    match pending with
    | [] => ({ s with processing := false }, .counts 0 0 0 0)
    | _ =>
      let (s1, acc) := retry_pending_loop base outcomes now s pending (0, 0, 0, 0)
      let (p, su, sf, ex) := acc
      ({ s1 with processing := false }, .counts p su sf ex)

/-! ### Cache fingerprint (`cache_service.py`, `_generate_cache_key`)

The normalization `hotel_name.lower().strip()` is embedded directly; the
`hashlib.md5(...).hexdigest()` call is embedded as an executable MD5 over
the UTF-8 bytes of the raw key.  Machine words are `Nat` reduced mod
`2 ^ 32`. -/

/-- Python `str.strip()` over the character list: drop leading and trailing
whitespace. -/
def pyStripList (l : List Char) : List Char :=
  ((l.dropWhile Char.isWhitespace).reverse.dropWhile Char.isWhitespace).reverse

/-- Python `s.lower().strip()` (ASCII case mapping). -/
def pyNormalize (s : String) : String :=
  String.mk (pyStripList (s.data.map Char.toLower))

/-- The normalized address component of the key: `key_parts` gains the
address only when the raw address is truthy (`if address:`). -/
def keyParts (addr : Option String) : Option String :=
  match addr with
  | some a => if a != "" then some (pyNormalize a) else none
  | none => none

/-- Embeds `"|".join(key_parts)` over the normalized name and optional address. -/
def rawCacheKey (name : String) (addr : Option String) : String :=
  pyNormalize name ++
    (match keyParts addr with
     | some t => "|" ++ t
     | none => "")

/-- Left rotation of a 32-bit word held in a `Nat`. -/
def rotl32 (x c : Nat) : Nat :=
  ((x <<< c) ||| (x >>> (32 - c))) % 2 ^ 32

/-- The 64 MD5 sine-derived constants `K`. -/
def md5K : List Nat :=
  [3614090360, 3905402710, 606105819, 3250441966,
   4118548399, 1200080426, 2821735955, 4249261313,
   1770035416, 2336552879, 4294925233, 2304563134,
   1804603682, 4254626195, 2792965006, 1236535329,
   4129170786, 3225465664, 643717713, 3921069994,
   3593408605, 38016083, 3634488961, 3889429448,
   568446438, 3275163606, 4107603335, 1163531501,
   2850285829, 4243563512, 1735328473, 2368359562,
   4294588738, 2272392833, 1839030562, 4259657740,
   2763975236, 1272893353, 4139469664, 3200236656,
   681279174, 3936430074, 3572445317, 76029189,
   3654602809, 3873151461, 530742520, 3299628645,
   4096336452, 1126891415, 2878612391, 4237533241,
   1700485571, 2399980690, 4293915773, 2240044497,
   1873313359, 4264355552, 2734768916, 1309151649,
   4149444226, 3174756917, 718787259, 3951481745]

/-- The 64 MD5 per-round left-rotation amounts `s`. -/
def md5S : List Nat :=
  [7, 12, 17, 22, 7, 12, 17, 22, 7, 12, 17, 22, 7, 12, 17, 22,
   5, 9, 14, 20, 5, 9, 14, 20, 5, 9, 14, 20, 5, 9, 14, 20,
   4, 11, 16, 23, 4, 11, 16, 23, 4, 11, 16, 23, 4, 11, 16, 23,
   6, 10, 15, 21, 6, 10, 15, 21, 6, 10, 15, 21, 6, 10, 15, 21]

/-- MD5 padding: append `0x80`, zero-pad to 56 mod 64, then the original
length in bits as 8 little-endian bytes. -/
def md5pad (msg : List Nat) : List Nat :=
  let bitLen := (msg.length * 8) % 2 ^ 64
  let padLen := (55 + 64 - msg.length % 64) % 64 + 1
  msg ++ [128] ++ List.replicate (padLen - 1) 0 ++
    (List.range 8).map (fun i => bitLen / 2 ^ (8 * i) % 256)

/-- Split a byte list into 64-byte blocks. -/
def md5chunks (l : List Nat) : List (List Nat) :=
  if h : l = [] then []
  else
    have : (l.drop 64).length < l.length := by
      have hl : 0 < l.length := List.length_pos.mpr h
      simp only [List.length_drop]
      omega
    l.take 64 :: md5chunks (l.drop 64)
termination_by l.length

/-- Little-endian 32-bit word `j` of a 64-byte block. -/
def md5word (block : List Nat) (j : Nat) : Nat :=
  block.getD (4 * j) 0 + 256 * block.getD (4 * j + 1) 0 +
    65536 * block.getD (4 * j + 2) 0 + 16777216 * block.getD (4 * j + 3) 0

/-- One MD5 round `i` on state `(a, b, c, d)` over block words `m`. -/
def md5round (m : Nat → Nat) (st : Nat × Nat × Nat × Nat) (i : Nat) :
    Nat × Nat × Nat × Nat :=
  let (a, b, c, d) := st
  let (f, g) :=
    if i < 16 then ((b &&& c) ||| ((2 ^ 32 - 1 - b) &&& d), i)
    else if i < 32 then ((d &&& b) ||| ((2 ^ 32 - 1 - d) &&& c), (5 * i + 1) % 16)
    else if i < 48 then (b ^^^ c ^^^ d, (3 * i + 5) % 16)
    else (c ^^^ (b ||| (2 ^ 32 - 1 - d)), (7 * i) % 16)
  let f := (f + a + md5K.getD i 0 + m g) % 2 ^ 32
  (d, (b + rotl32 f (md5S.getD i 0)) % 2 ^ 32, b, c)

/-- Process one 64-byte block into the running digest. -/
def md5block (st : Nat × Nat × Nat × Nat) (block : List Nat) :
    Nat × Nat × Nat × Nat :=
  let m := md5word block
  let (a0, b0, c0, d0) := st
  let (a, b, c, d) := (List.range 64).foldl (md5round m) (a0, b0, c0, d0)
  ((a0 + a) % 2 ^ 32, (b0 + b) % 2 ^ 32, (c0 + c) % 2 ^ 32, (d0 + d) % 2 ^ 32)

/-- Lowercase hex digit. -/
def hexDigit (n : Nat) : Char := "0123456789abcdef".toList.getD n '0'

/-- Little-endian lowercase hex of a 32-bit word (8 characters). -/
def hexLE32 (w : Nat) : String :=
  String.mk ((List.range 4).flatMap (fun i =>
    let byte := w / 2 ^ (8 * i) % 256
    [hexDigit (byte / 16), hexDigit (byte % 16)]))

/-- Embeds `hashlib.md5(raw.encode()).hexdigest()` over a string: MD5 of the UTF-8
bytes, 32 lowercase hex characters. -/
def md5hex (s : String) : String :=
  let bytes := s.toUTF8.toList.map (fun b => b.toNat)
  let (a, b, c, d) := (md5chunks (md5pad bytes)).foldl md5block
    (1732584193, 4023233417, 2562383102, 271733878)
  hexLE32 a ++ hexLE32 b ++ hexLE32 c ++ hexLE32 d

/-- Embeds `CacheService._generate_cache_key`: the literal `hotel:`, the
key kind, a colon, and the first 16 hex characters of the MD5 of the raw
key. -/
def generate_cache_key (pre name : String) (addr : Option String) : String :=
  "hotel:" ++ pre ++ ":" ++ (md5hex (rawCacheKey name addr)).take 16

/-! ### Fast-mode orchestrator (spec model) -/

/-- Candidate structured fields a search provider can return (spec section 6). -/
structure SpecCandidate where
  website : Option String := none
  phone : Option String := none
  rooms : Option Int := none
deriving DecidableEq, Repr

/-- Which fallback providers one spec-level lookup invoked. -/
structure SpecCalls where
  fallbackWebSearch : Bool := false
  bookingSiteSearch : Bool := false
  planningPortalSearch : Bool := false
deriving DecidableEq, Repr

/-- Provider outcomes seen by one spec-level lookup. -/
structure SpecEnv where
  primary : Option SpecCandidate := none
  fallback : Option SpecCandidate := none
  booking : Option SpecCandidate := none
  planningRooms : Option Int := none
deriving DecidableEq, Repr

/-- Status from field presence (spec section 4.1 step 6). -/
def statusOfFields (website phone rooms : Bool) : StatusEnum :=
  if website && phone && rooms then .success
  else if website || phone || rooms then .partialInfo
  else .not_found

/-- Modelled from the spec: the `skip_deep_scrape`-aware orchestrator of
spec section 4.1.  The `lookup_hotel` under `src/services/hotel_lookup.py`
does not accept the `skip_deep_scrape` parameter its callers in `main.py`
and `retry_queue_service.py` pass, so the flag-aware lookup is absent from
`src/` and is modelled here from the spec state machine: step 3 terminates
as NotFound when the primary search is empty and `skip_deep_scrape` is set,
without entering the fallback chain (FallbackWebSearch, BookingSiteSearch,
PlanningPortalSearch); otherwise the fallback chain of step 4 and the
planning-portal last resort of step 5 run as described. -/
def lookup_spec_model (env : SpecEnv) (skip_deep_scrape : Bool) :
    StatusEnum × SpecCalls :=
  match env.primary with
  | some c =>
    -- Step 2/5: primary found; the planning portal is the last resort when
    -- rooms are still missing (independent of phone/website discovery).
    let rooms := if truthyN c.rooms then c.rooms else env.planningRooms
    let planningCalled := !truthyN c.rooms
    (statusOfFields (truthyS c.website) (truthyS c.phone) (truthyN rooms),
      { planningPortalSearch := planningCalled })
  | none =>
    if skip_deep_scrape then
      -- Step 3: fast-mode contract, no fallback chain.
      (.not_found, {})
    else
      -- Step 4: FallbackWebSearch, then BookingSiteSearch, then step 5.
      match env.fallback with
      | some c =>
        let rooms := if truthyN c.rooms then c.rooms else env.planningRooms
        (statusOfFields (truthyS c.website) (truthyS c.phone) (truthyN rooms),
          { fallbackWebSearch := true, planningPortalSearch := !truthyN c.rooms })
      | none =>
        match env.booking with
        | some c =>
          let rooms := if truthyN c.rooms then c.rooms else env.planningRooms
          (statusOfFields (truthyS c.website) (truthyS c.phone) (truthyN rooms),
            { fallbackWebSearch := true, bookingSiteSearch := true,
              planningPortalSearch := !truthyN c.rooms })
        | none =>
          (.not_found,
            { fallbackWebSearch := true, bookingSiteSearch := true,
              planningPortalSearch := true })

/-! ### Concrete scenarios used by witnesses and counterexamples -/

/-- A cache hit whose stored snapshot carries a status string outside the
`StatusEnum` member set. -/
def envBadCache : LookupEnv :=
  { cacheAvailable := true, cacheGet := some { status := some "bogus" } }

/-- Cache on and connected, but a miss; no Bing service; the fallback web
search legitimately returns no results. -/
def envNoResults : LookupEnv := { cacheAvailable := true, webSearch := .ok [] }

/-- Fallback path: a non-aggregator search hit whose site fails to scrape,
with a booking-site fallback that supplies rooms and a phone number. -/
def envScrapeFail : LookupEnv :=
  { bingConfigured := false
    webSearch := .ok [{ is_aggregator := some false, url := some "http://x.example",
                        source := some "DuckDuckGo" }]
    scrape := .ok { success := false }
    booking := .ok { success := true, rooms_min := some 10, rooms_max := some 12,
                     source_notes := some "20 rooms", phone := some "+44 1273 000000",
                     source := some "Booking.com" } }

/-- A Bing result with website, phone and rooms all present. -/
def bingDictFull : BingDict :=
  { official_website := some "https://g.example"
    uk_contact_phone := some "+44 1273 224300"
    rooms_min := some 201 }

/-- Bing grounding succeeds with website, phone and rooms all present. -/
def envBingFull : LookupEnv :=
  { bingConfigured := true
    bing := .ok (some bingDictFull) }

/-- Same, with an available-but-missing cache so the caching step runs. -/
def envBingFullCache : LookupEnv :=
  { cacheAvailable := true
    bingConfigured := true
    bing := .ok (some bingDictFull) }

/-- The Bing grounding call itself raises. -/
def envBingRaises : LookupEnv :=
  { bingConfigured := true, bing := .error "boom" }

/-- A valid cached snapshot. -/
def snapOk : CachedDict :=
  { search_name := some "The Grand"
    official_website := some "https://g.example"
    status := some "success"
    errors := ["old note"]
    cached_at := some "2024-02-06T10:30:00" }

/-- Cache hit on `snapOk`. -/
def envHitOk : LookupEnv := { cacheAvailable := true, cacheGet := some snapOk }

/-- The response `deserializeCached` rebuilds from `snapOk`. -/
def respOfSnapOk : HotelInfoResponse :=
  { search_name := "The Grand"
    official_website := some "https://g.example"
    status := .success
    last_checked := 0
    errors := ["old note"] }

/-- A request used by concrete scenarios. -/
def reqGrand : HotelSearchRequest := { name := "The Grand" }

/-- Batch environments: slot 0 sees the poisoned cache, the other slots see
the empty-result world. -/
def envsBatch : Nat → LookupEnv :=
  fun i => if i = 0 then envBadCache else envNoResults

/-- Batch requests. -/
def reqsBatch : List HotelSearchRequest := [{ name := "A" }, { name := "B" }]

/-- A retry item two attempts in, one short of exhaustion. -/
def itNearMax : RetryItem :=
  { id := "a", hotel_name := "Grand", attempt_count := 2, max_attempts := 3,
    status := .pending }

/-- A queue holding only `itNearMax`. -/
def sNearMax : RetryQueueState := { queue := [itNearMax] }

/-- The response `envBingFull`-style runs produce. -/
def respBingFull : HotelInfoResponse :=
  { search_name := "The Grand"
    official_website := some "https://g.example"
    uk_contact_phone := some "+44 1273 224300"
    rooms_min := some 201
    website_source_url := some "Bing Grounding"
    phone_source_url := some "Bing Grounding"
    status := .success
    last_checked := 0
    confidence_score := some 0 }

/-- The outcome of `lookup_hotel envBingFullCache reqGrand true`. -/
def oBingFullCache : LookupOutcome :=
  { resp := respBingFull, wroteCache := true, cacheHit := false }

/-- The outcome of `lookup_hotel envBingFull reqGrand false`. -/
def oBingFullPlain : LookupOutcome :=
  { resp := respBingFull, wroteCache := false, cacheHit := false }

/-! ## Claims -/

/-- Claim C7: the scheduled next retry time equals
`now + backoff_base * 2 ^ attempt_count`; with `backoff_base = 30` the
delays for attempt counts 0, 1, 2, 3 are 30s, 60s, 120s, 240s; for a
positive base the delay is strictly increasing in the attempt count; and
`enqueue` schedules a fresh item by the same formula at attempt count 0. -/
theorem C7_backoff_formula :
    (∀ (base now : ℚ) (n : ℕ),
      calculate_next_retry base now n = now + base * 2 ^ n) ∧
    (∀ now : ℚ,
      calculate_next_retry 30 now 0 = now + 30 ∧
      calculate_next_retry 30 now 1 = now + 60 ∧
      calculate_next_retry 30 now 2 = now + 120 ∧
      calculate_next_retry 30 now 3 = now + 240) ∧
    (∀ (base now : ℚ) (n : ℕ), 0 < base →
      calculate_next_retry base now n < calculate_next_retry base now (n + 1)) ∧
    (∀ s id hn a ci pc oe os sb m (base now : ℚ),
      ((enqueue s id hn a ci pc oe os sb m base now).2).next_retry_at =
        some (now + base * 2 ^ (0 : ℕ))) := by
  refine ⟨fun base now n => rfl, ?_, ?_,
    fun s id hn a ci pc oe os sb m base now => rfl⟩
  · intro now
    refine ⟨?_, ?_, ?_, ?_⟩ <;> (unfold calculate_next_retry; norm_num)
  · intro base now n hb
    unfold calculate_next_retry
    have h2 : (0 : ℚ) < 2 ^ n := by positivity
    have hlt : base * 2 ^ n < base * 2 ^ (n + 1) := by
      rw [pow_succ]
      nlinarith
    linarith

/-- Witness for C7 at `base = 30`. -/
theorem C7_backoff_formula_witness :
    (0 : ℚ) < 30 ∧ calculate_next_retry 30 0 1 < calculate_next_retry 30 0 2 :=
  ⟨by norm_num, C7_backoff_formula.2.2.1 30 0 1 (by norm_num)⟩

/-- Claim C8: when the processing flag is already set, `retry_all_pending`
returns the explicit already-in-progress result immediately: the returned
state is the input state unchanged (no pending read, no retry, no queue or
history mutation). -/
theorem C8_retry_all_mutex (base : ℚ) (s : RetryQueueState)
    (outcomes : String → Except String HotelInfoResponse) (now : ℚ)
    (h : s.processing = true) :
    retry_all_pending base s outcomes now = (s, .alreadyInProgress) := by
  simp [retry_all_pending, h]

/-- Witness for C8 on a one-item queue with the flag set. -/
theorem C8_retry_all_mutex_witness :
    ({ queue := [itNearMax], processing := true } : RetryQueueState).processing = true ∧
    retry_all_pending 30 { queue := [itNearMax], processing := true }
        (fun _ => .error "x") 0 =
      ({ queue := [itNearMax], processing := true }, .alreadyInProgress) :=
  ⟨rfl, C8_retry_all_mutex 30 _ _ 0 rfl⟩

/-- Claim C4 (spec-modelled): with `skip_deep_scrape` set and an empty
primary search result, the orchestrator terminates NotFound without
invoking FallbackWebSearch, BookingSiteSearch or PlanningPortalSearch. -/
theorem C4_fast_mode (env : SpecEnv) (skip : Bool)
    (h1 : env.primary = none) (h2 : skip = true) :
    lookup_spec_model env skip = (.not_found, {}) ∧
    (lookup_spec_model env skip).2.fallbackWebSearch = false ∧
    (lookup_spec_model env skip).2.bookingSiteSearch = false ∧
    (lookup_spec_model env skip).2.planningPortalSearch = false := by
  subst h2
  unfold lookup_spec_model
  rw [h1]
  exact ⟨rfl, rfl, rfl, rfl⟩

/-- Witness for C4: the empty environment in fast mode. -/
theorem C4_fast_mode_witness :
    lookup_spec_model {} true = (.not_found, {}) :=
  (C4_fast_mode {} true rfl rfl).1

/-- Claim C9 counterexample: for a fixed name, two distinct addresses
(differing only in case) produce the identical fingerprint, refuting the
distinctness half of the claim. -/
theorem C9_fingerprint_counterexample :
    ("X" : String) ≠ "x" ∧
    generate_cache_key "lookup" "Grand" (some "X") =
      generate_cache_key "lookup" "Grand" (some "x") := by
  constructor
  · decide
  · have h : rawCacheKey "Grand" (some "X") = rawCacheKey "Grand" (some "x") := by
      decide
    unfold generate_cache_key
    rw [h]

lemma string_append_cancel_left {s x y : String} (h : s ++ x = s ++ y) :
    x = y := by
  have hd := congrArg String.data h
  rw [String.data_append, String.data_append] at hd
  exact congrArg String.mk (List.append_cancel_left hd)

/-- Claim C9 (amended): the fingerprint is invariant under case and
leading/trailing-whitespace variation — any two name/address pairs with
equal normalized forms produce the identical cache key — and, for a fixed
name, two addresses with distinct normalized key parts produce distinct
pre-hash raw keys (hence distinct fingerprints up to truncated-MD5
collision). -/
theorem C9_fingerprint_amended :
    (∀ (pre n₁ n₂ : String) (a₁ a₂ : Option String),
      pyNormalize n₁ = pyNormalize n₂ → keyParts a₁ = keyParts a₂ →
      generate_cache_key pre n₁ a₁ = generate_cache_key pre n₂ a₂) ∧
    (∀ (n : String) (a₁ a₂ : Option String),
      keyParts a₁ ≠ keyParts a₂ →
      rawCacheKey n a₁ ≠ rawCacheKey n a₂) := by
  constructor
  · intro pre n₁ n₂ a₁ a₂ hn ha
    unfold generate_cache_key rawCacheKey
    rw [hn, ha]
  · intro n a₁ a₂ hne heq
    unfold rawCacheKey at heq
    apply hne
    cases h₁ : keyParts a₁ with
    | none =>
      cases h₂ : keyParts a₂ with
      | none => rfl
      | some t =>
        exfalso
        rw [h₁, h₂] at heq
        have heq' : pyNormalize n ++ "" = pyNormalize n ++ ("|" ++ t) := heq
        have hc := string_append_cancel_left heq'
        have hd : ([] : List Char) = '|' :: t.data := by
          have := congrArg String.data hc
          rwa [String.data_append] at this
        exact List.noConfusion hd
    | some t₁ =>
      cases h₂ : keyParts a₂ with
      | none =>
        exfalso
        rw [h₁, h₂] at heq
        have heq' : pyNormalize n ++ ("|" ++ t₁) = pyNormalize n ++ "" := heq
        have hc := string_append_cancel_left heq'
        have hd : '|' :: t₁.data = ([] : List Char) := by
          have := congrArg String.data hc
          rwa [String.data_append] at this
        exact List.noConfusion hd
      | some t₂ =>
        rw [h₁, h₂] at heq
        have heq' : pyNormalize n ++ ("|" ++ t₁) = pyNormalize n ++ ("|" ++ t₂) :=
          heq
        have hc := string_append_cancel_left heq'
        have hc2 := string_append_cancel_left hc
        rw [hc2]

/-- Witness for C9 (amended): concrete case/whitespace variants agree and
normalized-distinct addresses give distinct raw keys. -/
theorem C9_fingerprint_amended_witness :
    (pyNormalize "  GRAND Hotel " = pyNormalize "grand hotel" ∧
     keyParts (some " 1 High St ") = keyParts (some "1 HIGH ST") ∧
     generate_cache_key "lookup" "  GRAND Hotel " (some " 1 High St ") =
       generate_cache_key "lookup" "grand hotel" (some "1 HIGH ST")) ∧
    (keyParts (some "1 high st") ≠ keyParts (some "2 high st") ∧
     rawCacheKey "grand" (some "1 high st") ≠ rawCacheKey "grand" (some "2 high st")) :=
  ⟨⟨by decide, by decide,
    C9_fingerprint_amended.1 "lookup" _ _ _ _ (by decide) (by decide)⟩,
   ⟨by decide, C9_fingerprint_amended.2 "grand" _ _ (by decide)⟩⟩

/-- Claim C2 counterexample: a cache hit whose snapshot stores a status
string outside the `StatusEnum` members makes `lookup_hotel` raise — the
cache-read/deserialization stage sits before the `try` block, so this
fault is not converted to a terminal result but propagates. -/
theorem C2_never_raises_counterexample :
    lookup_hotel envBadCache reqGrand true =
      .error "bogus is not a valid StatusEnum" := by
  rfl

/-- Claim C2 (amended): no fault from any stage after the cache check ever
propagates — whenever the invocation does not take a cache hit whose
snapshot fails to deserialize, `lookup_hotel` returns a terminal result. -/
theorem C2_never_raises_amended (env : LookupEnv) (req : HotelSearchRequest)
    (useCache : Bool)
    (h : ∀ c, useCache = true → env.cacheAvailable = true →
      env.cacheGet = some c →
      (parseStatusEnum (c.status.getD "partial")).isOk = true) :
    (lookup_hotel env req useCache).isOk = true := by
  unfold lookup_hotel
  by_cases hb : (useCache && env.cacheAvailable) = true
  · have hb' := hb
    simp only [Bool.and_eq_true] at hb'
    obtain ⟨h1, h2⟩ := hb'
    cases hg : env.cacheGet with
    | none => simp [hb, hg, Except.isOk, Except.toBool]
    | some c =>
      have hok := h c h1 h2 hg
      cases hp : parseStatusEnum (c.status.getD "partial") with
      | error e => rw [hp] at hok; simp [Except.isOk, Except.toBool] at hok
      | ok st =>
        simp [hb, hg, deserializeCached, hp, Except.isOk, Except.toBool]
  · simp [hb, Except.isOk, Except.toBool]

/-- Witness for C2 (amended): even when the Bing call raises, the result is
a terminal value, not an exception. -/
theorem C2_never_raises_amended_witness :
    (lookup_hotel envBingRaises reqGrand true).isOk = true :=
  C2_never_raises_amended envBingRaises reqGrand true
    (fun _ _ h2 _ => absurd h2 (by decide))

/-! ### Helper lemmas about the pipeline branches -/

lemma apply_booking_result_status (r : HotelInfoResponse) (b : BookingResult) :
    (apply_booking_result r b).status = r.status := by
  simp only [apply_booking_result]
  repeat' split
  all_goals rfl

lemma apply_planning_result_status (r : HotelInfoResponse) (p : PlanningResult) :
    (apply_planning_result r p).status = r.status := by
  simp only [apply_planning_result]
  repeat' split
  all_goals rfl

lemma rooms_backfill_status (env : LookupEnv) (r : HotelInfoResponse)
    (h : r.status = .partialInfo) :
    (rooms_backfill env r).status = .partialInfo := by
  simp only [rooms_backfill]
  repeat' split
  all_goals simp_all [apply_booking_result_status, apply_planning_result_status]

lemma extraction_phase_ok {env : LookupEnv} {uc : Bool}
    {r : HotelInfoResponse} {url : Option String}
    {r' : HotelInfoResponse} {w' : Bool}
    (h : extraction_phase env uc r url = .ok (r', w')) :
    r'.status = .success ∨ r'.status = .partialInfo := by
  unfold extraction_phase at h
  cases hex : env.extract <;> rw [hex] at h
  · exact Except.noConfusion h
  · injection h with h
    rw [Prod.mk.injEq] at h
    obtain ⟨hr, hw⟩ := h
    subst hr
    repeat' split
    all_goals first
      | (left; rfl)
      | (right; rfl)
      | (right; exact rooms_backfill_status _ _ rfl)

lemma final_status_spec (rm ph wb : Bool) :
    (final_status rm ph wb = .success ↔ (rm && ph && wb) = true) ∧
    (final_status rm ph wb = .partialInfo ↔
      ((rm || ph || wb) && !(rm && ph && wb)) = true) ∧
    (final_status rm ph wb = .not_found ↔ (rm || ph || wb) = false) := by
  cases rm <;> cases ph <;> cases wb <;> decide

lemma final_status_ne_error (rm ph wb : Bool) :
    final_status rm ph wb ≠ .error := by
  cases rm <;> cases ph <;> cases wb <;> decide

/-- The status the Bing path assigns is `final_status` of the fields of its
own result. -/
lemma bing_path_fst_status (env : LookupEnv) (uc : Bool)
    (r0 : HotelInfoResponse) (b : BingDict) :
    (bing_path env uc r0 b).1.status =
      final_status (truthyN (bing_path env uc r0 b).1.rooms_min)
        (truthyS (bing_path env uc r0 b).1.uk_contact_phone)
        (truthyS (bing_path env uc r0 b).1.official_website) := rfl

/-- When the invocation cannot take a cache hit, `lookup_hotel` is the
guarded pipeline. -/
lemma lookup_no_hit (env : LookupEnv) (req : HotelSearchRequest) (uc : Bool)
    (h : uc = true → env.cacheAvailable = true → env.cacheGet = none) :
    lookup_hotel env req uc = .ok (run_pipeline env req uc) := by
  unfold lookup_hotel
  by_cases hb : (uc && env.cacheAvailable) = true
  · obtain ⟨h1, h2⟩ : uc = true ∧ env.cacheAvailable = true := by
      simpa [Bool.and_eq_true] using hb
    rw [if_pos hb, h h1 h2]
  · rw [if_neg hb]

/-- A normal (non-fault) exit of the `try` block never carries the Error
status: each `.ok` return site assigns Success, Partial or NotFound. -/
lemma try_body_ok_status {env : LookupEnv} {uc : Bool}
    {r0 r : HotelInfoResponse} {w : Bool}
    (h : try_body env uc r0 = .ok (r, w)) : r.status ≠ .error := by
  unfold try_body at h
  cases hbc : (if env.bingConfigured then env.bing else Except.ok none) <;>
    rw [hbc] at h
  · exact Except.noConfusion h
  · rename_i ob
    cases ob with
    | some b =>
      injection h with h
      rw [Prod.mk.injEq] at h
      obtain ⟨hr, hw⟩ := h
      subst hr
      rw [bing_path_fst_status]
      exact final_status_ne_error _ _ _
    | none =>
      cases hws : env.webSearch <;> rw [hws] at h
      · exact Except.noConfusion h
      · rename_i results
        cases results with
        | nil =>
          injection h with h
          rw [Prod.mk.injEq] at h
          obtain ⟨hr, hw⟩ := h
          subst hr
          simp
        | cons first rest =>
          repeat' split at h
          all_goals first
            | exact Except.noConfusion h
            | (injection h with h
               rw [Prod.mk.injEq] at h
               obtain ⟨hr, hw⟩ := h
               subst hr
               simp [apply_booking_result_status, apply_planning_result_status,
                 bing_path_fst_status, final_status_ne_error])
            | (rcases extraction_phase_ok h with h1 | h1 <;> simp [h1])

/-- On a cache hit, `lookup_hotel` is the deserialize-and-mark step. -/
lemma lookup_hit (env : LookupEnv) (req : HotelSearchRequest) (uc : Bool)
    (c : CachedDict) (hb : (uc && env.cacheAvailable) = true)
    (hg : env.cacheGet = some c) :
    lookup_hotel env req uc =
      match deserializeCached env req c with
      | .error e => .error e
      | .ok r => .ok ⟨{ r with errors := cacheMarker c :: r.errors }, false, true⟩ := by
  unfold lookup_hotel
  rw [if_pos hb, hg]

/-- The guarded pipeline only reports a cache write on a non-Error result:
the caching step is unreachable from the `except` branch. -/
lemma run_pipeline_status {env : LookupEnv} {req : HotelSearchRequest}
    {uc : Bool} (hw : (run_pipeline env req uc).wroteCache = true) :
    (run_pipeline env req uc).resp.status ≠ .error := by
  unfold run_pipeline at hw ⊢
  cases htb : try_body env uc (init_response env req) with
  | ok p =>
    obtain ⟨r, w⟩ := p
    exact try_body_ok_status htb
  | error p =>
    obtain ⟨r, e⟩ := p
    rw [htb] at hw
    simp at hw

/-- Claim C5 counterexample: with caching on and connected and a cache
miss, a NotFound terminal result (no search results) returns without any
cache write — refuting the only-if direction of the claimed equivalence. -/
theorem C5_cache_write_counterexample :
    envNoResults.cacheAvailable = true ∧ envNoResults.cacheGet = none ∧
    (lookup_hotel envNoResults reqGrand true).toOption.map
      (fun o => (o.resp.status, o.wroteCache)) = some (.not_found, false) := by
  refine ⟨rfl, rfl, ?_⟩
  decide

/-- Claim C5 (amended): an Error-status result is never written to the
cache — whenever the caching step ran, the terminal status is Success,
Partial or NotFound.  (The converse direction of the original claim fails:
several Partial/NotFound paths return before the caching step.) -/
theorem C5_error_never_cached (env : LookupEnv) (req : HotelSearchRequest)
    (uc : Bool) (o : LookupOutcome)
    (ho : lookup_hotel env req uc = .ok o) (hw : o.wroteCache = true) :
    o.resp.status ≠ .error := by
  by_cases hb : (uc && env.cacheAvailable) = true
  · cases hg : env.cacheGet with
    | none =>
      rw [lookup_no_hit env req uc (fun _ _ => hg)] at ho
      injection ho with ho
      subst ho
      exact run_pipeline_status hw
    | some c =>
      rw [lookup_hit env req uc c hb hg] at ho
      cases hd : deserializeCached env req c <;> rw [hd] at ho
      · exact Except.noConfusion ho
      · injection ho with ho
        subst ho
        simp at hw
  · have hlk : lookup_hotel env req uc = .ok (run_pipeline env req uc) := by
      unfold lookup_hotel
      rw [if_neg hb]
    rw [hlk] at ho
    injection ho with ho
    subst ho
    exact run_pipeline_status hw

/-- Witness for C5 (amended): a run that did write the cache has a
non-Error status. -/
theorem C5_error_never_cached_witness :
    oBingFullCache.wroteCache = true ∧ oBingFullCache.resp.status ≠ .error :=
  ⟨rfl, C5_error_never_cached envBingFullCache reqGrand true oBingFullCache
    (by decide) rfl⟩

/-- Claim C10: on every cache hit the returned result is the deserialized
snapshot with the cache marker inserted at position 0 of `errors`, so the
errors list is one element longer than the cached one, its head is the
marker, and the returned errors list is not identical to the cached one. -/
theorem C10_cache_marker (env : LookupEnv) (req : HotelSearchRequest)
    (c : CachedDict) (r : HotelInfoResponse)
    (h1 : env.cacheAvailable = true) (h2 : env.cacheGet = some c)
    (h3 : deserializeCached env req c = .ok r) :
    lookup_hotel env req true =
      .ok ⟨{ r with errors := cacheMarker c :: r.errors }, false, true⟩ ∧
    r.errors = c.errors ∧
    (cacheMarker c :: r.errors).length = c.errors.length + 1 ∧
    cacheMarker c :: r.errors ≠ c.errors := by
  have herr : r.errors = c.errors := by
    unfold deserializeCached at h3
    cases hp : parseStatusEnum (c.status.getD "partial") <;> rw [hp] at h3
    · exact Except.noConfusion h3
    · injection h3 with h3
      subst h3
      rfl
  refine ⟨?_, herr, by rw [herr]; simp, ?_⟩
  · rw [lookup_hit env req true c (by simp [h1]) h2, h3]
  · intro hcontra
    have hlen := congrArg List.length hcontra
    rw [herr] at hlen
    simp at hlen

/-- Witness for C10 on the concrete snapshot `snapOk`. -/
theorem C10_cache_marker_witness :
    lookup_hotel envHitOk reqGrand true =
      .ok ⟨{ respOfSnapOk with
             errors := cacheMarker snapOk :: respOfSnapOk.errors },
           false, true⟩ :=
  (C10_cache_marker envHitOk reqGrand snapOk respOfSnapOk rfl rfl (by decide)).1

/-- Claim C1 counterexample: on the fallback path with a failed scrape, the
booking-site backfill can populate all three of website, phone and rooms
while the status stays Partial — the terminal status is not the claimed
function of field population. -/
theorem C1_status_counterexample :
    (lookup_hotel envScrapeFail reqGrand true).toOption.map
      (fun o => (truthyS o.resp.official_website, truthyS o.resp.uk_contact_phone,
                 truthyN o.resp.rooms_min, o.resp.status)) =
      some (true, true, true, .partialInfo) := by
  decide

/-- Claim C1 (amended): on the primary (Bing) path the terminal status is
the claimed function of field population — Success iff website, phone and
rooms are all present, Partial iff one or two are, NotFound iff none are —
and an unhandled fault yields status Error with the fields populated
before the fault retained and the fault message appended to `errors`.
(On fallback early-return paths the status is fixed before booking-site
backfill and can disagree with field population.) -/
theorem C1_status_determination :
    (∀ (env : LookupEnv) (req : HotelSearchRequest) (uc : Bool) (b : BingDict),
      env.bingConfigured = true → env.bing = .ok (some b) →
      (uc = true → env.cacheAvailable = true → env.cacheGet = none) →
      ∃ o, lookup_hotel env req uc = .ok o ∧
        (o.resp.status = .success ↔
          (truthyN o.resp.rooms_min && truthyS o.resp.uk_contact_phone &&
            truthyS o.resp.official_website) = true) ∧
        (o.resp.status = .partialInfo ↔
          ((truthyN o.resp.rooms_min || truthyS o.resp.uk_contact_phone ||
            truthyS o.resp.official_website) &&
           !(truthyN o.resp.rooms_min && truthyS o.resp.uk_contact_phone &&
             truthyS o.resp.official_website)) = true) ∧
        (o.resp.status = .not_found ↔
          (truthyN o.resp.rooms_min || truthyS o.resp.uk_contact_phone ||
            truthyS o.resp.official_website) = false)) ∧
    (∀ (env : LookupEnv) (req : HotelSearchRequest) (uc : Bool)
      (r : HotelInfoResponse) (e : String),
      try_body env uc (init_response env req) = .error (r, e) →
      (uc = true → env.cacheAvailable = true → env.cacheGet = none) →
      lookup_hotel env req uc =
        .ok ⟨{ r with status := .error, errors := r.errors ++ [e] },
             false, false⟩) := by
  constructor
  · intro env req uc b h1 h2 h3
    obtain ⟨hfs1, hfs2, hfs3⟩ := final_status_spec
      (truthyN (bing_path env uc (init_response env req) b).1.rooms_min)
      (truthyS (bing_path env uc (init_response env req) b).1.uk_contact_phone)
      (truthyS (bing_path env uc (init_response env req) b).1.official_website)
    have hb : try_body env uc (init_response env req) =
        .ok (bing_path env uc (init_response env req) b) := by
      simp [try_body, h1, h2]
    have hre : run_pipeline env req uc =
        ⟨(bing_path env uc (init_response env req) b).1,
         (bing_path env uc (init_response env req) b).2, false⟩ := by
      unfold run_pipeline
      rw [hb]
    refine ⟨run_pipeline env req uc, lookup_no_hit env req uc h3, ?_, ?_, ?_⟩ <;>
      rw [hre]
    · exact hfs1
    · exact hfs2
    · exact hfs3
  · intro env req uc r e htb h3
    rw [lookup_no_hit env req uc h3]
    unfold run_pipeline
    rw [htb]

/-- Witness for C1 (amended): the full Bing result classifies as Success;
a raising Bing call yields the Error status with the message appended. -/
theorem C1_status_determination_witness :
    oBingFullPlain.resp.status = .success ∧
    lookup_hotel envBingRaises reqGrand false =
      .ok ⟨{ init_response envBingRaises reqGrand with
             status := .error,
             errors := (init_response envBingRaises reqGrand).errors ++ ["boom"] },
           false, false⟩ := by
  constructor
  · obtain ⟨o, ho, h1, -, -⟩ :=
      C1_status_determination.1 envBingFull reqGrand false bingDictFull rfl rfl
        (by intro h; exact absurd h (by decide))
    have hcomp : lookup_hotel envBingFull reqGrand false = .ok oBingFullPlain := by
      decide
    rw [hcomp] at ho
    injection ho with ho
    subst ho
    exact h1.mpr (by decide)
  · exact C1_status_determination.2 envBingRaises reqGrand false
      (init_response envBingRaises reqGrand) "boom" (by decide)
      (by intro h; exact absurd h (by decide))

/-! ### Helper lemmas about the batch executor -/

lemma lookup_batch_go_length (envs : Nat → LookupEnv) (i : Nat)
    (reqs : List HotelSearchRequest) :
    (lookup_batch_go envs i reqs).length = reqs.length := by
  induction reqs generalizing i with
  | nil => rfl
  | cons a t ih => simp [lookup_batch_go, ih]

lemma lookup_batch_go_get (envs : Nat → LookupEnv) :
    ∀ (reqs : List HotelSearchRequest) (i j : Nat) (h : j < reqs.length)
      (h2 : j < (lookup_batch_go envs i reqs).length),
      (lookup_batch_go envs i reqs).get ⟨j, h2⟩ =
        batch_slot (envs (i + j)) (reqs.get ⟨j, h⟩) := by
  intro reqs
  induction reqs with
  | nil => intro i j h h2; exact absurd h (by simp)
  | cons a t ih =>
    intro i j h h2
    cases j with
    | zero => rfl
    | succ j =>
      have h' : j < t.length := by simpa using h
      have h2' : j < (lookup_batch_go envs (i + 1) t).length := by
        simpa [lookup_batch_go] using h2
      have hstep : (lookup_batch_go envs i (a :: t)).get ⟨j + 1, h2⟩ =
          (lookup_batch_go envs (i + 1) t).get ⟨j, h2'⟩ := rfl
      rw [hstep, ih (i + 1) j h' h2']
      have hidx : i + 1 + j = i + (j + 1) := by omega
      rw [hidx]
      rfl

/-- Claim C3: the batch returns exactly one result per request; slot `j`
is determined by request `j` and the world its own task sees — so a fault
in one task yields the Error placeholder in that slot only and cannot
change or abort sibling slots. -/
theorem C3_batch_order (envs : Nat → LookupEnv)
    (reqs : List HotelSearchRequest) :
    (lookup_batch envs reqs).length = reqs.length ∧
    (∀ (j : Nat) (h : j < reqs.length)
      (h2 : j < (lookup_batch envs reqs).length),
      (lookup_batch envs reqs).get ⟨j, h2⟩ =
        batch_slot (envs j) (reqs.get ⟨j, h⟩)) ∧
    (∀ (j : Nat) (h : j < reqs.length)
      (h2 : j < (lookup_batch envs reqs).length) (e : String),
      lookup_hotel (envs j) (reqs.get ⟨j, h⟩) true = .error e →
      (lookup_batch envs reqs).get ⟨j, h2⟩ =
        error_placeholder (reqs.get ⟨j, h⟩) (envs j).now) := by
  refine ⟨lookup_batch_go_length envs 0 reqs, ?_, ?_⟩
  · intro j h h2
    have hg := lookup_batch_go_get envs reqs 0 j h h2
    rw [show (0 : Nat) + j = j from by omega] at hg
    exact hg
  · intro j h h2 e he
    have hg := lookup_batch_go_get envs reqs 0 j h h2
    rw [show (0 : Nat) + j = j from by omega] at hg
    have hg' : (lookup_batch envs reqs).get ⟨j, h2⟩ =
        batch_slot (envs j) (reqs.get ⟨j, h⟩) := hg
    rw [hg']
    unfold batch_slot
    rw [he]

/-- Witness for C3 on a two-request batch whose first task raises. -/
theorem C3_batch_order_witness :
    (lookup_batch envsBatch reqsBatch).length = 2 ∧
    (lookup_batch envsBatch reqsBatch).get ⟨0, by decide⟩ =
      error_placeholder { name := "A" } 0 ∧
    (lookup_batch envsBatch reqsBatch).get ⟨1, by decide⟩ =
      batch_slot (envsBatch 1) { name := "B" } := by
  have h := C3_batch_order envsBatch reqsBatch
  refine ⟨h.1, ?_, ?_⟩
  · exact h.2.2 0 (by decide) (by decide) "bogus is not a valid StatusEnum"
      (by decide)
  · exact h.2.1 1 (by decide) (by decide)

/-! ### Helper lemmas about the retry queue -/

lemma get_item_id {s : RetryQueueState} {id : String} {it0 : RetryItem}
    (h : get_item s id = some it0) : it0.id = id := by
  have := List.find?_some h
  simpa using this

lemma get_item_mem {s : RetryQueueState} {id : String} {it0 : RetryItem}
    (h : get_item s id = some it0) : it0 ∈ s.queue :=
  List.mem_of_find?_eq_some h

lemma mem_save_item {s : RetryQueueState} {it x : RetryItem}
    (h : x ∈ (save_item s it).queue) :
    x = it ∨ (x ∈ s.queue ∧ x.id ≠ it.id) := by
  unfold save_item at h
  split at h
  · simp only [List.mem_map] at h
    obtain ⟨y, hy, hxy⟩ := h
    by_cases hid : y.id = it.id
    · rw [if_pos hid] at hxy
      left
      exact hxy.symm
    · rw [if_neg hid] at hxy
      right
      subst hxy
      exact ⟨hy, hid⟩
  · rename_i hany
    simp only [List.mem_append, List.mem_singleton] at h
    rcases h with h | h
    · right
      refine ⟨h, fun hc => hany ?_⟩
      exact List.any_eq_true.mpr ⟨x, h, by simp [hc]⟩
    · left
      exact h

lemma get_item_remove (s : RetryQueueState) (id : String) :
    get_item (remove_item s id) id = none := by
  unfold get_item remove_item
  apply List.find?_eq_none.mpr
  intro x hx
  simp only [List.mem_filter] at hx
  obtain ⟨-, hne⟩ := hx
  simp only [bne_iff_ne, ne_eq] at hne
  simp [hne]

lemma mem_move {s1 : RetryQueueState} {it : RetryItem} {now : ℚ}
    {x : RetryItem} (h : x ∈ (move_to_history s1 it now).queue) :
    x ∈ s1.queue ∧ x.id ≠ it.id := by
  unfold move_to_history remove_item at h
  simp only [List.mem_filter] at h
  exact ⟨h.1, by simpa using h.2⟩

lemma find_replace {l : List RetryItem} {id : String} {it0 itN : RetryItem}
    (h : l.find? (fun x => decide (x.id = id)) = some it0) (hN : itN.id = id) :
    (l.map (fun x => if x.id = itN.id then itN else x)).find?
      (fun x => decide (x.id = id)) = some itN := by
  induction l with
  | nil => simp at h
  | cons a t ih =>
    by_cases ha : a.id = id
    · have h1 : (a :: t).map (fun x => if x.id = itN.id then itN else x) =
          itN :: t.map (fun x => if x.id = itN.id then itN else x) := by
        simp [show a.id = itN.id by rw [ha, hN]]
      rw [h1, List.find?_cons]
      simp [hN]
    · have h1 : (a :: t).map (fun x => if x.id = itN.id then itN else x) =
          a :: t.map (fun x => if x.id = itN.id then itN else x) := by
        simp [show ¬a.id = itN.id by rw [hN]; exact ha]
      have hd : decide (a.id = id) = false := by simp [ha]
      rw [h1, List.find?_cons, hd]
      rw [List.find?_cons, hd] at h
      exact ih h

lemma get_item_save {s : RetryQueueState} {id : String} {it0 itN : RetryItem}
    (h : get_item s id = some it0) (hN : itN.id = id) :
    get_item (save_item s itN) id = some itN := by
  have hany : s.queue.any (fun x => decide (x.id = itN.id)) = true :=
    List.any_eq_true.mpr ⟨it0, get_item_mem h, by simp [get_item_id h, hN]⟩
  unfold save_item
  rw [if_pos hany]
  exact find_replace h hN

lemma get_item_move {s1 : RetryQueueState} {it : RetryItem} {now : ℚ}
    {id : String} (hid : it.id = id) :
    get_item (move_to_history s1 it now) id = none := by
  subst hid
  exact get_item_remove s1 it.id

lemma move_history_eq (s1 : RetryQueueState) (it : RetryItem) (now : ℚ) :
    (move_to_history s1 it now).history =
      (⟨it, now⟩ :: s1.history).take HISTORY_MAX := rfl

lemma move_history_head (s1 : RetryQueueState) (it : RetryItem) (now : ℚ) :
    (move_to_history s1 it now).history.head? = some ⟨it, now⟩ := by
  rw [move_history_eq, show HISTORY_MAX = 199 + 1 from rfl,
    List.take_succ_cons]
  rfl

lemma move_history_count {s1 : RetryQueueState} {it : RetryItem} {now : ℚ}
    {id : String} (hid : it.id = id) (h0 : history_count id s1.history = 0) :
    history_count id (move_to_history s1 it now).history = 1 := by
  unfold history_count at *
  rw [move_history_eq, show HISTORY_MAX = 199 + 1 from rfl,
    List.take_succ_cons, List.filter_cons]
  rw [if_pos (by simp [hid])]
  simp only [List.length_cons]
  have hsub : ((s1.history.take 199).filter
        (fun e => decide (e.item.id = id))).length ≤
      (s1.history.filter (fun e => decide (e.item.id = id))).length :=
    ((List.take_sublist _ _).filter _).length_le
  omega

lemma save_item_history (s : RetryQueueState) (it : RetryItem) :
    (save_item s it).history = s.history := by
  unfold save_item
  split <;> rfl

lemma retry_fail_exhaust {base : ℚ} {s1 : RetryQueueState} {it2 : RetryItem}
    {now : ℚ} (hmax : it2.max_attempts ≤ it2.attempt_count) :
    retry_fail base s1 it2 now =
      (move_to_history s1 { it2 with status := .exhausted } now,
       some { it2 with status := .exhausted }) := by
  unfold retry_fail
  rw [if_pos hmax]

lemma retry_fail_pending {base : ℚ} {s1 : RetryQueueState} {it2 : RetryItem}
    {now : ℚ} (hmax : ¬it2.max_attempts ≤ it2.attempt_count) :
    retry_fail base s1 it2 now =
      (save_item s1 { it2 with
         status := .pending,
         next_retry_at := some (calculate_next_retry base now it2.attempt_count) },
       some { it2 with
         status := .pending,
         next_retry_at := some (calculate_next_retry base now it2.attempt_count) }) := by
  unfold retry_fail
  rw [if_neg hmax]

lemma retry_one_ok_succ {base : ℚ} {s : RetryQueueState} {id : String}
    {now : ℚ} {it0 : RetryItem} {res : HotelInfoResponse}
    (hgi : get_item s id = some it0)
    (hst : res.status = .success ∨ res.status = .partialInfo) :
    retry_one base s id (.ok res) now =
      (move_to_history (save_item s (retrying_item it0 now))
        (succeeded_item it0 now res) now,
       some (succeeded_item it0 now res)) := by
  simp only [retry_one, hgi]
  rw [if_pos hst]

lemma retry_one_ok_fail {base : ℚ} {s : RetryQueueState} {id : String}
    {now : ℚ} {it0 : RetryItem} {res : HotelInfoResponse}
    (hgi : get_item s id = some it0)
    (hst : ¬(res.status = .success ∨ res.status = .partialInfo)) :
    retry_one base s id (.ok res) now =
      retry_fail base (save_item s (retrying_item it0 now))
        (fail_item it0 now res.errors) now := by
  simp only [retry_one, hgi]
  rw [if_neg hst]

lemma retry_one_err {base : ℚ} {s : RetryQueueState} {id : String}
    {now : ℚ} {it0 : RetryItem} {e : String}
    (hgi : get_item s id = some it0) :
    retry_one base s id (.error e) now =
      retry_fail base (save_item s (retrying_item it0 now))
        (fail_item it0 now [e]) now := by
  simp only [retry_one, hgi]

lemma retry_fail_bounded {base : ℚ} {s1 : RetryQueueState} {it2 : RetryItem}
    {now : ℚ}
    (hq : ∀ x ∈ s1.queue, x.id ≠ it2.id → x.attempt_count < x.max_attempts) :
    queue_bounded (retry_fail base s1 it2 now).1 := by
  unfold retry_fail
  by_cases hmax : it2.max_attempts ≤ it2.attempt_count
  · rw [if_pos hmax]
    intro x hx
    obtain ⟨hx1, hne⟩ := mem_move hx
    exact hq x hx1 hne
  · rw [if_neg hmax]
    intro x hx
    rcases mem_save_item hx with rfl | ⟨hmem, hne⟩
    · show it2.attempt_count < it2.max_attempts
      omega
    · exact hq x hmem hne

lemma queue_bounded_retry_one {base : ℚ} {s : RetryQueueState} {id : String}
    {out : Except String HotelInfoResponse} {now : ℚ}
    (hb : queue_bounded s) :
    queue_bounded (retry_one base s id out now).1 := by
  cases hgi : get_item s id with
  | none =>
    unfold retry_one
    rw [hgi]
    exact hb
  | some it0 =>
    have hq1 : ∀ x ∈ (save_item s (retrying_item it0 now)).queue,
        x.id ≠ it0.id → x.attempt_count < x.max_attempts := by
      intro x hx hne
      rcases mem_save_item hx with rfl | ⟨hmem, -⟩
      · exact absurd rfl hne
      · exact hb x hmem
    cases out with
    | ok res =>
      by_cases hst : res.status = .success ∨ res.status = .partialInfo
      · rw [retry_one_ok_succ hgi hst]
        intro x hx
        obtain ⟨hx1, hne⟩ := mem_move hx
        exact hq1 x hx1 hne
      · rw [retry_one_ok_fail hgi hst]
        exact retry_fail_bounded hq1
    | error e =>
      rw [retry_one_err hgi]
      exact retry_fail_bounded hq1

/-- Claim C6: each `retry_one` on a live item increments `attempt_count`
by exactly 1 and preserves the attempt cap; a failure at the cap
transitions the item to Exhausted, removes it from the live queue, and
records it exactly once in history with a `completed_at` timestamp; a
success does the same with status Succeeded; a failure below the cap
leaves the item Pending with a fresh backoff time; and a retried id that
is no longer live is never touched again (no reappearance). -/
theorem C6_retry_lifecycle :
    (∀ (base : ℚ) (s : RetryQueueState) (id : String)
      (out : Except String HotelInfoResponse) (now : ℚ) (it0 : RetryItem),
      get_item s id = some it0 →
      (∃ it', (retry_one base s id out now).2 = some it' ∧
        it'.attempt_count = it0.attempt_count + 1 ∧
        it'.max_attempts = it0.max_attempts) ∧
      (queue_bounded s → queue_bounded (retry_one base s id out now).1) ∧
      ((∀ res, out = .ok res →
          ¬(res.status = .success ∨ res.status = .partialInfo)) →
        it0.max_attempts ≤ it0.attempt_count + 1 →
        ∃ it', (retry_one base s id out now).2 = some it' ∧
          it'.status = .exhausted ∧
          get_item (retry_one base s id out now).1 id = none ∧
          (retry_one base s id out now).1.history.head? = some ⟨it', now⟩ ∧
          (history_count id s.history = 0 →
            history_count id (retry_one base s id out now).1.history = 1)) ∧
      (∀ res, out = .ok res →
        (res.status = .success ∨ res.status = .partialInfo) →
        ∃ it', (retry_one base s id out now).2 = some it' ∧
          it'.status = .succeeded ∧
          get_item (retry_one base s id out now).1 id = none ∧
          (retry_one base s id out now).1.history.head? = some ⟨it', now⟩ ∧
          (history_count id s.history = 0 →
            history_count id (retry_one base s id out now).1.history = 1)) ∧
      ((∀ res, out = .ok res →
          ¬(res.status = .success ∨ res.status = .partialInfo)) →
        it0.attempt_count + 1 < it0.max_attempts →
        ∃ it', (retry_one base s id out now).2 = some it' ∧
          it'.status = .pending ∧
          get_item (retry_one base s id out now).1 id = some it' ∧
          it'.next_retry_at =
            some (calculate_next_retry base now (it0.attempt_count + 1)))) ∧
    (∀ (base : ℚ) (s : RetryQueueState) (id : String)
      (out : Except String HotelInfoResponse) (now : ℚ),
      get_item s id = none → retry_one base s id out now = (s, none)) := by
  constructor
  · intro base s id out now it0 hgi
    have hid := get_item_id hgi
    refine ⟨?_, fun hb => queue_bounded_retry_one hb, ?_, ?_, ?_⟩
    · cases out with
      | ok res =>
        by_cases hst : res.status = .success ∨ res.status = .partialInfo
        · rw [retry_one_ok_succ hgi hst]
          exact ⟨_, rfl, rfl, rfl⟩
        · rw [retry_one_ok_fail hgi hst]
          by_cases hmax : (fail_item it0 now res.errors).max_attempts ≤
              (fail_item it0 now res.errors).attempt_count
          · rw [retry_fail_exhaust hmax]
            exact ⟨_, rfl, rfl, rfl⟩
          · rw [retry_fail_pending hmax]
            exact ⟨_, rfl, rfl, rfl⟩
      | error e =>
        rw [retry_one_err hgi]
        by_cases hmax : (fail_item it0 now [e]).max_attempts ≤
            (fail_item it0 now [e]).attempt_count
        · rw [retry_fail_exhaust hmax]
          exact ⟨_, rfl, rfl, rfl⟩
        · rw [retry_fail_pending hmax]
          exact ⟨_, rfl, rfl, rfl⟩
    · intro hfail hmax'
      cases out with
      | ok res =>
        have hst := hfail res rfl
        rw [retry_one_ok_fail hgi hst]
        rw [retry_fail_exhaust (show (fail_item it0 now res.errors).max_attempts ≤
          (fail_item it0 now res.errors).attempt_count from hmax')]
        exact ⟨_, rfl, rfl, get_item_move hid, move_history_head _ _ _,
          fun h0 => move_history_count hid (by rw [save_item_history]; exact h0)⟩
      | error e =>
        rw [retry_one_err hgi]
        rw [retry_fail_exhaust (show (fail_item it0 now [e]).max_attempts ≤
          (fail_item it0 now [e]).attempt_count from hmax')]
        exact ⟨_, rfl, rfl, get_item_move hid, move_history_head _ _ _,
          fun h0 => move_history_count hid (by rw [save_item_history]; exact h0)⟩
    · intro res hout hst
      subst hout
      rw [retry_one_ok_succ hgi hst]
      exact ⟨_, rfl, rfl, get_item_move hid, move_history_head _ _ _,
        fun h0 => move_history_count hid (by rw [save_item_history]; exact h0)⟩
    · intro hfail hlt
      cases out with
      | ok res =>
        have hst := hfail res rfl
        rw [retry_one_ok_fail hgi hst]
        rw [retry_fail_pending (show ¬(fail_item it0 now res.errors).max_attempts ≤
          (fail_item it0 now res.errors).attempt_count from by
            show ¬it0.max_attempts ≤ it0.attempt_count + 1
            omega)]
        exact ⟨_, rfl, rfl, get_item_save (get_item_save hgi hid) hid, rfl⟩
      | error e =>
        rw [retry_one_err hgi]
        rw [retry_fail_pending (show ¬(fail_item it0 now [e]).max_attempts ≤
          (fail_item it0 now [e]).attempt_count from by
            show ¬it0.max_attempts ≤ it0.attempt_count + 1
            omega)]
        exact ⟨_, rfl, rfl, get_item_save (get_item_save hgi hid) hid, rfl⟩
  · intro base s id out now h
    unfold retry_one
    rw [h]

/-- Witness for C6: the near-cap item exhausts on a raising retry, leaves
the live queue and lands once at the head of history; a missing id is a
no-op. -/
theorem C6_retry_lifecycle_witness :
    (retry_one 30 sNearMax "a" (.error "boom") 7).2.map RetryItem.status =
      some .exhausted ∧
    get_item (retry_one 30 sNearMax "a" (.error "boom") 7).1 "a" = none ∧
    (retry_one 30 sNearMax "a" (.error "boom") 7).1.history.head?.map
      (fun en => (en.item.status, en.completed_at)) = some (.exhausted, 7) ∧
    history_count "a" (retry_one 30 sNearMax "a" (.error "boom") 7).1.history = 1 ∧
    retry_one 30 sNearMax "b" (.error "x") 0 = (sNearMax, none) := by
  obtain ⟨it', h1, h2, h3, h4, h5⟩ :=
    (C6_retry_lifecycle.1 30 sNearMax "a" (.error "boom") 7 itNearMax
      (by decide)).2.2.1 (fun res hres => Except.noConfusion hres) (by decide)
  refine ⟨?_, h3, ?_, h5 (by decide),
    C6_retry_lifecycle.2 30 sNearMax "b" (.error "x") 0 (by decide)⟩
  · rw [h1]
    simp [h2]
  · rw [h4]
    simp [h2]

end HotelTV
